import Mathlib

/-!
Verification of the host-authoritative simulation core of a P2P pursuit
("zombie tag") game.  All definitions are shallow embeddings of the
TypeScript source: `src/utils/gameLogic.ts` (spatial resolver, steering),
`src/components/GameCanvas.tsx` (host tick, match state machine, client
reconciliation), with types from `src/types.ts` and constants from
`src/constants.ts`.  Floating-point numbers are idealized as real numbers,
timestamps (`Date.now()` milliseconds) as integers, and `Math.random()`
draws as an explicitly supplied stream of reals.
-/

noncomputable section

/-- `Role` enum from `src/types.ts`. -/
inductive Role where
  | SURVIVOR
  | ZOMBIE
deriving DecidableEq

/-- `GameState` enum from `src/types.ts`. -/
inductive GameState where
  | LOBBY
  | COUNTDOWN
  | PLAYING
  | GAME_OVER
deriving DecidableEq

/-- The game-over reason codes `'INFECTED' | 'SURVIVED' | 'TIME_UP'` from
`GameCanvas.tsx` line 37. -/
inductive GameOverReason where
  | INFECTED
  | SURVIVED
  | TIME_UP
deriving DecidableEq

/-- `Point` interface from `src/types.ts`. -/
structure Point where
  x : ℝ
  y : ℝ

/-- `Obstacle` interface from `src/types.ts`: an axis-aligned rectangle. -/
structure Obstacle where
  x : ℝ
  y : ℝ
  width : ℝ
  height : ℝ

/-- `Player` interface from `src/types.ts`.  The optional interpolation
targets `targetX`/`targetY` and the wander `target` are `Option`s, matching
the optional TS fields. -/
structure Player where
  id : String
  nickname : String
  x : ℝ
  y : ℝ
  radius : ℝ
  role : Role
  speed : ℝ
  isBot : Bool
  dx : ℝ
  dy : ℝ
  wanderAngle : ℝ
  target : Option Point
  targetX : Option ℝ
  targetY : Option ℝ

/-- `MAP_WIDTH` from `src/constants.ts`. -/
def MAP_WIDTH : ℝ := 2500

/-- `MAP_HEIGHT` from `src/constants.ts`. -/
def MAP_HEIGHT : ℝ := 2500

/-- `PLAYER_RADIUS` from `src/constants.ts`. -/
def PLAYER_RADIUS : ℝ := 15

/-- `PLAYER_SPEED` from `src/constants.ts`. -/
def PLAYER_SPEED : ℝ := 4.5

/-- `ZOMBIE_SPEED_MULTIPLIER` from `src/constants.ts`. -/
def ZOMBIE_SPEED_MULTIPLIER : ℝ := 1.0

/-- `VIEW_DISTANCE` from `src/constants.ts`. -/
def VIEW_DISTANCE : ℝ := 320

/-- `GAME_DURATION` from `src/constants.ts` (seconds), used in the host
timer arithmetic, hence modelled as an integer. -/
def GAME_DURATION : ℤ := 180

/-- `getDistance` from `gameLogic.ts` lines 11-13. -/
def getDistance (p1 p2 : Point) : ℝ :=
  Real.sqrt ((p1.x - p2.x) ^ 2 + (p1.y - p2.y) ^ 2)

/-- `clamp` from `gameLogic.ts` lines 15-17. -/
def clamp (value lo hi : ℝ) : ℝ :=
  min (max value lo) hi

/-- `lerp` from `gameLogic.ts` lines 19-21. -/
def lerp (start finish t : ℝ) : ℝ :=
  start + (finish - start) * t

/-- `getLineRectIntersection` from `gameLogic.ts` lines 25-53: broad-phase
AABB reject, then the segment midpoint is tested against the padded
rectangle.  The source also returns the obstacle alongside the point; the
obstacle argument is already available to every caller, so only the point
is returned here. -/
def getLineRectIntersection (p1 p2 : Point) (obs : Obstacle) (padding : ℝ) :
    Option Point :=
  let minX := min p1.x p2.x
  let maxX := max p1.x p2.x
  let minY := min p1.y p2.y
  let maxY := max p1.y p2.y
  let obsLeft := obs.x - padding
  let obsRight := obs.x + obs.width + padding
  let obsTop := obs.y - padding
  let obsBottom := obs.y + obs.height + padding
  if maxX < obsLeft ∨ minX > obsRight ∨ maxY < obsTop ∨ minY > obsBottom then
    none
  else
    let midX := (p1.x + p2.x) / 2
    let midY := (p1.y + p2.y) / 2
    if midX > obsLeft ∧ midX < obsRight ∧ midY > obsTop ∧ midY < obsBottom then
      some ⟨midX, midY⟩
    else
      none

/-- The `STATE`-packet reconciliation lookup from `GameCanvas.tsx` lines
328-330: `new Map(players.map(p => [p.id, p]))` followed by `get`.  A JS
`Map` built from an entry list keeps the last entry of each key, so the
lookup returns the last local player with the given id. -/
def lookupPlayer (cur : List Player) (pid : String) : Option Player :=
  (cur.filter (fun p => p.id = pid)).getLast?

/-- The `STATE`-packet player reconciliation from `GameCanvas.tsx` lines
332-345: the local array is replaced by a per-identity merge of the
incoming snapshot — an existing local player keeps its position and gets
new interpolation targets, role and nickname; an unseen player is created
from the snapshot entry with targets equal to its position. -/
def applyStatePlayers (cur srv : List Player) : List Player :=
  srv.map (fun sp =>
    match lookupPlayer cur sp.id with
    | some l =>
        { l with targetX := some sp.x, targetY := some sp.y,
                 role := sp.role, nickname := sp.nickname }
    | none =>
        { sp with targetX := some sp.x, targetY := some sp.y })

/-- The local constant `safeZoneRadius = 250` of `generateObstacles`,
`gameLogic.ts` line 58. -/
def safeZoneRadius : ℝ := 250

/-- The map center point `(MAP_WIDTH / 2, MAP_HEIGHT / 2)` used by
`generateObstacles`. -/
def mapCenter : Point := ⟨MAP_WIDTH / 2, MAP_HEIGHT / 2⟩

/-- One iteration of the wall loop of `generateObstacles`, `gameLogic.ts`
lines 63-81.  `Math.random()` is modelled by the stream `rand`; each wall
iteration draws exactly four values (orientation, length, x, y), so
iteration `i` reads `rand (4*i) .. rand (4*i+3)`.  Returns `none` when the
candidate is rejected by the safe-zone center check (`continue`). -/
def wallAt (rand : ℕ → ℝ) (i : ℕ) : Option Obstacle :=
  let isHorizontal := rand (4 * i) > 0.5
  let length := rand (4 * i + 1) * 400 + 100
  let thickness : ℝ := 40
  let width := if isHorizontal then length else thickness
  let height := if isHorizontal then thickness else length
  let x := rand (4 * i + 2) * (MAP_WIDTH - width)
  let y := rand (4 * i + 3) * (MAP_HEIGHT - height)
  let centerDist := getDistance ⟨x + width / 2, y + height / 2⟩ mapCenter
  if centerDist < safeZoneRadius then none
  else some ⟨x, y, width, height⟩

/-- One iteration of the debris loop of `generateObstacles`, `gameLogic.ts`
lines 83-95.  The wall loop consumes the first `50 * 4 = 200` stream
values; debris iteration `i` draws the three values at
`rand (200 + 3*i) .. rand (200 + 3*i + 2)` (size, x, y). -/
def debrisAt (rand : ℕ → ℝ) (i : ℕ) : Option Obstacle :=
  let size := rand (200 + 3 * i) * 50 + 30
  let x := rand (200 + 3 * i + 1) * (MAP_WIDTH - size)
  let y := rand (200 + 3 * i + 2) * (MAP_HEIGHT - size)
  let centerDist := getDistance ⟨x + size / 2, y + size / 2⟩ mapCenter
  if centerDist < safeZoneRadius then none
  else some ⟨x, y, size, size⟩

/-- `generateObstacles` from `gameLogic.ts` lines 56-98: 50 wall attempts
(`WALL_COUNT_LOCAL`) followed by 80 debris attempts (`DEBRIS_COUNT_LOCAL`),
keeping the accepted candidates in loop order. -/
def generateObstacles (rand : ℕ → ℝ) : List Obstacle :=
  (List.range 50).filterMap (wallAt rand) ++
    (List.range 80).filterMap (debrisAt rand)

/-- The closest point of an obstacle rectangle to a point, exactly as
computed inside `resolveCollision` (`gameLogic.ts` lines 112-113). -/
def closestRectPoint (px py : ℝ) (obs : Obstacle) : ℝ × ℝ :=
  (clamp px obs.x (obs.x + obs.width), clamp py obs.y (obs.y + obs.height))

/-- Squared distance from a point to an obstacle rectangle, the quantity
`distanceSquared` of `resolveCollision` (`gameLogic.ts` lines 115-118).
Also the yardstick of the spec sentence "distance from center to nearest
rectangle point ≥ radius". -/
def distSqToRect (px py : ℝ) (obs : Obstacle) : ℝ :=
  (px - (closestRectPoint px py obs).1) ^ 2 +
    (py - (closestRectPoint px py obs).2) ^ 2

/-- The per-obstacle body of the `resolveCollision` loop, `gameLogic.ts`
lines 105-130: broad-phase AABB skip, then push the circle out along the
normalized separation vector when the squared distance to the closest
rectangle point is below `radius²` yet above the degeneracy threshold
`0.0001`. -/
def collideStep (p : Player) (obs : Obstacle) : Player :=
  if p.x + p.radius < obs.x ∨ p.x - p.radius > obs.x + obs.width ∨
      p.y + p.radius < obs.y ∨ p.y - p.radius > obs.y + obs.height then
    p
  else
    let closestX := clamp p.x obs.x (obs.x + obs.width)
    let closestY := clamp p.y obs.y (obs.y + obs.height)
    let dx := p.x - closestX
    let dy := p.y - closestY
    let distanceSquared := dx * dx + dy * dy
    if distanceSquared < p.radius * p.radius ∧ distanceSquared > 0.0001 then
      let distance := Real.sqrt distanceSquared
      let overlap := p.radius - distance
      { p with x := p.x + dx / distance * overlap,
               y := p.y + dy / distance * overlap }
    else
      p

/-- `resolveCollision` from `gameLogic.ts` lines 101-131: clamp the player
into the map minus its radius, then run the push-out loop over the
obstacles in list order. -/
def resolveCollision (p : Player) (obstacles : List Obstacle) : Player :=
  let clamped := { p with x := clamp p.x p.radius (MAP_WIDTH - p.radius),
                          y := clamp p.y p.radius (MAP_HEIGHT - p.radius) }
  obstacles.foldl collideStep clamped

/-- The exponential velocity smoothing of the host tick, `GameCanvas.tsx`
lines 228-229: `p.dx = lerp(p.dx, dx, 0.2)` and likewise for `dy`. -/
def smoothVelocity (p : Player) (inp : ℝ × ℝ) : Player :=
  { p with dx := lerp p.dx inp.1 0.2, dy := lerp p.dy inp.2 0.2 }

/-- The near-zero velocity snap of the host tick, `GameCanvas.tsx` lines
234-235: each component with absolute value below `0.01` is set to exactly
`0`, independently of the other component. -/
def snapVelocity (p : Player) : Player :=
  { p with dx := if |p.dx| < 0.01 then 0 else p.dx,
           dy := if |p.dy| < 0.01 then 0 else p.dy }

/-- The per-player physics of the host tick, `GameCanvas.tsx` lines
211-241: smooth velocity toward the requested input, snap near-zero
components, integrate position by velocity × role-dependent speed, then
resolve collisions.  The input (host local input or the client's buffered
input, defaulting to `(0,0)`) is supplied by the caller. -/
def movePlayer (obstacles : List Obstacle) (inp : ℝ × ℝ) (p : Player) :
    Player :=
  let p1 := smoothVelocity p inp
  let speed := if p1.role = Role.ZOMBIE then
      PLAYER_SPEED * ZOMBIE_SPEED_MULTIPLIER
    else PLAYER_SPEED
  let p2 := snapVelocity p1
  let p3 := { p2 with x := p2.x + p2.dx * speed, y := p2.y + p2.dy * speed }
  resolveCollision p3 obstacles

/-- The infection rule applied to one player, `GameCanvas.tsx` lines
255-263: a survivor that touches any member of the pre-pass zombie list
(distance below `0.8 × (sum of radii)`) becomes a zombie. -/
def infectStep (zombiePlayers : List Player) (p : Player) : Player :=
  if p.role = Role.SURVIVOR ∧ ∃ z ∈ zombiePlayers,
      getDistance ⟨p.x, p.y⟩ ⟨z.x, z.y⟩ < (p.radius + z.radius) * 0.8 then
    { p with role := Role.ZOMBIE }
  else
    p

/-- The host-side session state: the refs of `GameCanvas.tsx` that the
host tick reads and writes (`playersRef`, `obstaclesRef`, `gameStateRef`,
`gameStartTimeRef`) together with the React state it sets (`timeLeft`,
`gameOverReason`, `stats`).  Timestamps are `Date.now()` milliseconds. -/
structure HostState where
  players : List Player
  obstacles : List Obstacle
  gameState : GameState
  gameStartTime : ℤ
  timeLeft : ℤ
  gameOverReason : GameOverReason
  statSurvivors : ℕ
  statZombies : ℕ

/-- `endGame` from `GameCanvas.tsx` lines 283-287 (the broadcast is a
network side effect outside the state). -/
def endGame (s : HostState) (reason : GameOverReason) : HostState :=
  { s with gameState := GameState.GAME_OVER, gameOverReason := reason }

/-- The timer section of `updateHost`, `GameCanvas.tsx` lines 197-205:
when the session is playing, recompute `timeLeft` from the wall-clock
elapsed time since `gameStartTime` (via `Math.floor` of the millisecond
difference over 1000, i.e. flooring division) and end the game with
`TIME_UP` when it has reached zero. -/
def tickTimer (s : HostState) (now : ℤ) : HostState :=
  if s.gameState = GameState.PLAYING then
    let elapsed := (now - s.gameStartTime).fdiv 1000
    let left := max 0 (GAME_DURATION - elapsed)
    let st := { s with timeLeft := left }
    if left ≤ 0 then endGame st GameOverReason.TIME_UP else st
  else s

/-- The physics section of `updateHost`, `GameCanvas.tsx` lines 207-241:
every player is integrated against its buffered input (this section is not
phase-guarded in the source). -/
def tickPhysics (s : HostState) (inputs : String → ℝ × ℝ) : HostState :=
  { s with players :=
      s.players.map (fun p => movePlayer s.obstacles (inputs p.id) p) }

/-- The infection / win-condition section of `updateHost`,
`GameCanvas.tsx` lines 243-271: when (still) playing, count roles as they
stand before any flip of this pass, infect every survivor touching a
member of the pre-pass zombie list, and end the game with `INFECTED` when
no survivor was counted while more than one player is present. -/
def tickInfection (s : HostState) : HostState :=
  if s.gameState = GameState.PLAYING then
    let zombiePlayers := s.players.filter (fun p => p.role = Role.ZOMBIE)
    let survivors := (s.players.filter (fun p => p.role = Role.SURVIVOR)).length
    let zombies := (s.players.filter (fun p => p.role = Role.ZOMBIE)).length
    let s3 := { s with players := s.players.map (infectStep zombiePlayers),
                       statSurvivors := survivors, statZombies := zombies }
    if survivors = 0 ∧ 1 < s.players.length then
      endGame s3 GameOverReason.INFECTED
    else s3
  else s

/-- `updateHost` from `GameCanvas.tsx` lines 193-281, one host simulation
tick at wall-clock time `now`: early return when the game is over,
otherwise the timer, physics and infection sections in source order.
`inputs` maps a player id to its buffered input direction (the host's own
id to its local input); the source defaults a missing buffer entry to
`(0,0)`, which the function argument absorbs. -/
def updateHost (s : HostState) (now : ℤ) (inputs : String → ℝ × ℝ) :
    HostState :=
  if s.gameState = GameState.GAME_OVER then s
  else tickInfection (tickPhysics (tickTimer s now) inputs)

/-- A sequence of host simulation ticks, each given by its wall-clock time
and the input buffer contents at that tick. -/
def runHost (s : HostState) (ticks : List (ℤ × (String → ℝ × ℝ))) :
    HostState :=
  ticks.foldl (fun st t => updateHost st t.1 t.2) s

/-- The axis-aligned surface normal computed in the wall-sliding step of
`updateBot`, `gameLogic.ts` lines 266-284: compare the overhang of the
bot's offset from the obstacle center beyond the half-width against the
half-height and take the sign of the dominant axis. -/
def surfaceNormal (bot : Player) (wallHit : Obstacle) : ℝ × ℝ :=
  let dx := bot.x - (wallHit.x + wallHit.width / 2)
  let dy := bot.y - (wallHit.y + wallHit.height / 2)
  let hw := wallHit.width / 2
  let hh := wallHit.height / 2
  let ox := |dx| - hw
  let oy := |dy| - hh
  if ox > oy then (Real.sign dx, 0) else (0, Real.sign dy)

/-- The wall-sliding projection of `updateBot`, `gameLogic.ts` lines
287-304: when the desired vector moves into the wall (negative dot product
with the surface normal), subtract the into-wall component, add a `0.5`
push away from the surface, and re-normalize when the result is
non-trivial. -/
def wallSlide (bot : Player) (wallHit : Obstacle) (t : ℝ × ℝ) : ℝ × ℝ :=
  let n := surfaceNormal bot wallHit
  let dot := t.1 * n.1 + t.2 * n.2
  if dot < 0 then
    let tx := t.1 - n.1 * dot + n.1 * 0.5
    let ty := t.2 - n.2 * dot + n.2 * 0.5
    let slideLen := Real.sqrt (tx * tx + ty * ty)
    if slideLen > 0.001 then (tx / slideLen, ty / slideLen) else (tx, ty)
  else t

/-- The 10-attempt wander-target resampling loop of `updateBot`,
`gameLogic.ts` lines 210-221, with the attempts still available as fuel;
attempt number `i` draws `rand (2*i)` and `rand (2*i+1)`.  Returns the
first sampled point farther than `400` from the bot, or `none` when all
attempts fail. -/
def wanderLoop (bot : Player) (rand : ℕ → ℝ) : ℕ → ℕ → Option Point
  | 0, _ => none
  | k + 1, i =>
      let tx := rand (2 * i) * (MAP_WIDTH - 100) + 50
      let ty := rand (2 * i + 1) * (MAP_HEIGHT - 100) + 50
      if getDistance ⟨bot.x, bot.y⟩ ⟨tx, ty⟩ > 400 then some ⟨tx, ty⟩
      else wanderLoop bot rand k (i + 1)

/-- The wander-target state of `updateBot` right after the resampling
block, `gameLogic.ts` lines 209-221: resample when there is no target or
the current one is closer than `60`; a failed resampling loop leaves
`bot.target` as it was.  Line 223 then dereferences this value with the
non-null assertion `bot.target!`. -/
def wanderTarget (bot : Player) (rand : ℕ → ℝ) : Option Point :=
  match bot.target with
  | none => wanderLoop bot rand 10 0
  | some t =>
      if getDistance ⟨bot.x, bot.y⟩ t < 60 then
        match wanderLoop bot rand 10 0 with
        | some u => some u
        | none => some t
      else some t

/-- The one-directional role relation of the role-monotonicity invariant:
whoever is a zombie stays a zombie. -/
def roleMono (p q : Player) : Prop :=
  p.role = Role.ZOMBIE → q.role = Role.ZOMBIE

/-- A concrete player (shape of `createPlayer`, `GameCanvas.tsx` lines
428-444) used to instantiate theorems. -/
def examplePlayer : Player :=
  { id := "p1", nickname := "p1", x := 100, y := 100, radius := PLAYER_RADIUS,
    role := Role.SURVIVOR, speed := PLAYER_SPEED, isBot := false,
    dx := 0, dy := 0, wanderAngle := 0, target := none,
    targetX := none, targetY := none }

/-- A concrete zombie player. -/
def pz : Player := { examplePlayer with id := "z", nickname := "z", role := Role.ZOMBIE }

/-- A concrete survivor player standing at the same spot as `pz`. -/
def ps : Player := { examplePlayer with id := "s", nickname := "s" }

/-- `ps` after infection. -/
def psz : Player := { ps with role := Role.ZOMBIE }

/-- The all-zero input buffer (no key pressed anywhere). -/
def inp0 : String → ℝ × ℝ := fun _ => (0, 0)

/-- A concrete host session in the `PLAYING` phase with one zombie and one
survivor standing on the same spot, no obstacles, match started at time 0. -/
def hostStateA : HostState :=
  { players := [pz, ps], obstacles := [], gameState := GameState.PLAYING,
    gameStartTime := 0, timeLeft := 180,
    gameOverReason := GameOverReason.INFECTED,
    statSurvivors := 1, statZombies := 1 }

/-- `hostStateA` with the timer recomputed by the first tick at
wall-clock time 1000. -/
def hostStateA1 : HostState :=
  { players := [pz, ps], obstacles := [], gameState := GameState.PLAYING,
    gameStartTime := 0, timeLeft := 179,
    gameOverReason := GameOverReason.INFECTED,
    statSurvivors := 1, statZombies := 1 }

/-- The host session after the first tick: the lone survivor is infected,
both players are zombies. -/
def hostStateA2 : HostState :=
  { players := [pz, psz], obstacles := [], gameState := GameState.PLAYING,
    gameStartTime := 0, timeLeft := 179,
    gameOverReason := GameOverReason.INFECTED,
    statSurvivors := 1, statZombies := 1 }

/-- A concrete player drifting slowly (both velocity components below the
snap threshold). -/
def pSlow : Player := { examplePlayer with dx := 0.005, dy := 0.005 }

/-- A concrete bot standing at the map center with no wander target. -/
def botCentered : Player := { examplePlayer with x := 1250, y := 1250 }

/-- A concrete bot standing just right of a 100×100 obstacle. -/
def botWall : Player := { examplePlayer with x := 115, y := 50 }

/-- A concrete 100×100 obstacle at the origin. -/
def obsWall : Obstacle := ⟨0, 0, 100, 100⟩

/-- A concrete player standing outside the map corner area. -/
def pOut : Player := { examplePlayer with x := -5, y := 3000 }

/-- A small 10×10 obstacle at the origin. -/
def obsSmall : Obstacle := ⟨0, 0, 10, 10⟩

/-- The all-zero random stream. -/
def rand0 : ℕ → ℝ := fun _ => 0

/-- The wall produced by the first iteration of `generateObstacles` under
`rand0`: vertical, thickness 40, minimal length 100, at the map origin. -/
def smallWall : Obstacle := ⟨0, 0, 40, 100⟩

/-- A random stream whose first wall draw places a horizontal wall of
length 400 with its center exactly `safeZoneRadius` to the right of the
map center. -/
def randC7 : ℕ → ℝ := fun n =>
  if n = 0 then 0.6
  else if n = 1 then 0.75
  else if n = 2 then 1300 / 2100
  else if n = 3 then 0.5
  else 0

/-- The wall produced by the first iteration of `generateObstacles` under
`randC7`: it passes the center check (center distance exactly 250) yet
reaches to within 50 units of the map center. -/
def badWall : Obstacle := ⟨1300, 1230, 400, 40⟩

lemma lookupPlayer_id {cur : List Player} {pid : String} {l : Player}
    (h : lookupPlayer cur pid = some l) : l.id = pid := by
  have hmem : l ∈ cur.filter (fun p => p.id = pid) := by
    unfold lookupPlayer at h
    exact List.mem_of_getLast?_eq_some h
  have := List.of_mem_filter hmem
  simpa using this

/-- Claim C5: when a client applies a `State` message, an incoming player
whose identity matches an existing local player only has its interpolation
target, role and nickname updated (the local position `x`,`y` is kept, no
snap), while an incoming player with no local counterpart is created with
position and interpolation target both equal to the incoming position. -/
theorem state_reconciliation_preserves_identity (cur srv : List Player) :
    List.Forall₂ (fun sp r =>
      (∀ l, lookupPlayer cur sp.id = some l →
        r = { l with targetX := some sp.x, targetY := some sp.y,
                     role := sp.role, nickname := sp.nickname } ∧
        r.x = l.x ∧ r.y = l.y) ∧
      (lookupPlayer cur sp.id = none →
        r = { sp with targetX := some sp.x, targetY := some sp.y } ∧
        r.x = sp.x ∧ r.y = sp.y))
      srv (applyStatePlayers cur srv) := by
  unfold applyStatePlayers
  rw [List.forall₂_map_right_iff]
  rw [List.forall₂_same]
  intro sp _
  constructor
  · intro l hl
    rw [hl]
    exact ⟨rfl, rfl, rfl⟩
  · intro hl
    rw [hl]
    exact ⟨rfl, rfl, rfl⟩

/-- Claim C10: after a client processes a `State` message, the local player
identities are exactly the identities carried in the snapshot (in snapshot
order); in particular every local player absent from the snapshot is
dropped in the same reconciliation step. -/
theorem state_reconciliation_ids (cur srv : List Player) :
    (applyStatePlayers cur srv).map Player.id = srv.map Player.id := by
  unfold applyStatePlayers
  rw [List.map_map]
  apply List.map_congr_left
  intro sp _
  simp only [Function.comp_apply]
  cases h : lookupPlayer cur sp.id with
  | none => rfl
  | some l =>
      show Player.id { l with targetX := some sp.x, targetY := some sp.y,
                              role := sp.role, nickname := sp.nickname } = sp.id
      exact @lookupPlayer_id cur sp.id l h

lemma collideStep_role (p : Player) (o : Obstacle) :
    (collideStep p o).role = p.role := by
  unfold collideStep
  dsimp only
  split_ifs <;> rfl

lemma foldl_collideStep_role (l : List Obstacle) (q : Player) :
    (l.foldl collideStep q).role = q.role := by
  induction l generalizing q with
  | nil => rfl
  | cons o l ih => rw [List.foldl_cons, ih, collideStep_role]

lemma resolveCollision_role (p : Player) (obstacles : List Obstacle) :
    (resolveCollision p obstacles).role = p.role := by
  unfold resolveCollision
  rw [foldl_collideStep_role]

lemma movePlayer_role (obstacles : List Obstacle) (inp : ℝ × ℝ) (p : Player) :
    (movePlayer obstacles inp p).role = p.role := by
  unfold movePlayer
  rw [resolveCollision_role]
  rfl

lemma infectStep_role_zombie (z : List Player) (p : Player)
    (h : p.role = Role.ZOMBIE) : (infectStep z p).role = Role.ZOMBIE := by
  unfold infectStep
  split_ifs <;> simp_all

lemma forall₂_roleMono_refl (l : List Player) : List.Forall₂ roleMono l l :=
  List.forall₂_same.2 fun _ _ => id

lemma forall₂_roleMono_map (f : Player → Player)
    (hf : ∀ p, p.role = Role.ZOMBIE → (f p).role = Role.ZOMBIE)
    (l : List Player) : List.Forall₂ roleMono l (l.map f) := by
  rw [List.forall₂_map_right_iff]
  exact List.forall₂_same.2 fun p _ => hf p

lemma forall₂_roleMono_trans {a b c : List Player}
    (h1 : List.Forall₂ roleMono a b) (h2 : List.Forall₂ roleMono b c) :
    List.Forall₂ roleMono a c := by
  induction h1 generalizing c with
  | nil => cases h2; exact List.Forall₂.nil
  | cons hab _ ih =>
      cases h2 with
      | cons hbc h2t => exact List.Forall₂.cons (fun hz => hbc (hab hz)) (ih h2t)

lemma tickTimer_players (s : HostState) (now : ℤ) :
    (tickTimer s now).players = s.players := by
  unfold tickTimer endGame
  dsimp only
  split_ifs <;> rfl

lemma tickTimer_obstacles (s : HostState) (now : ℤ) :
    (tickTimer s now).obstacles = s.obstacles := by
  unfold tickTimer endGame
  dsimp only
  split_ifs <;> rfl

lemma tickTimer_gameStartTime (s : HostState) (now : ℤ) :
    (tickTimer s now).gameStartTime = s.gameStartTime := by
  unfold tickTimer endGame
  dsimp only
  split_ifs <;> rfl

lemma tickInfection_roleMono (s : HostState) :
    List.Forall₂ roleMono s.players (tickInfection s).players := by
  unfold tickInfection endGame
  dsimp only
  split_ifs <;>
    first
      | exact forall₂_roleMono_refl _
      | exact forall₂_roleMono_map _
          (fun p hz => infectStep_role_zombie _ p hz) _

lemma updateHost_roleMono (s : HostState) (now : ℤ)
    (inputs : String → ℝ × ℝ) :
    List.Forall₂ roleMono s.players (updateHost s now inputs).players := by
  unfold updateHost
  split_ifs with h0
  · exact forall₂_roleMono_refl _
  · have h1 : List.Forall₂ roleMono s.players
        (tickPhysics (tickTimer s now) inputs).players := by
      unfold tickPhysics
      rw [tickTimer_players]
      exact forall₂_roleMono_map _
        (fun p hz => by rw [movePlayer_role]; exact hz) _
    exact forall₂_roleMono_trans h1 (tickInfection_roleMono _)

lemma timer_expired_iff (E : ℤ) :
    max 0 (GAME_DURATION - E.fdiv 1000) ≤ 0 ↔ 180000 ≤ E := by
  rw [Int.fdiv_eq_ediv _ (by norm_num : (0:ℤ) ≤ 1000)]
  unfold GAME_DURATION
  omega

lemma tickTimer_timeout (s : HostState) (now : ℤ)
    (hplay : s.gameState = GameState.PLAYING)
    (ht : 180000 ≤ now - s.gameStartTime) :
    tickTimer s now = { s with
      timeLeft := max 0 (GAME_DURATION - (now - s.gameStartTime).fdiv 1000),
      gameState := GameState.GAME_OVER,
      gameOverReason := GameOverReason.TIME_UP } := by
  unfold tickTimer endGame
  rw [if_pos hplay]
  dsimp only
  rw [if_pos ((timer_expired_iff _).2 ht)]

lemma tickTimer_no_timeout (s : HostState) (now : ℤ)
    (hplay : s.gameState = GameState.PLAYING)
    (ht : now - s.gameStartTime < 180000) :
    tickTimer s now = { s with
      timeLeft := max 0 (GAME_DURATION - (now - s.gameStartTime).fdiv 1000) } := by
  unfold tickTimer
  rw [if_pos hplay]
  dsimp only
  rw [if_neg (fun hc => absurd ((timer_expired_iff _).1 hc) (not_le.2 ht))]

lemma tickInfection_not_playing (s : HostState)
    (h : ¬ s.gameState = GameState.PLAYING) : tickInfection s = s := by
  unfold tickInfection
  rw [if_neg h]

lemma tickInfection_timeLeft (s : HostState) :
    (tickInfection s).timeLeft = s.timeLeft := by
  unfold tickInfection endGame
  dsimp only
  split_ifs <;> rfl

lemma tickInfection_state_or_reason (s : HostState)
    (h : s.gameState = GameState.PLAYING) :
    (tickInfection s).gameState = GameState.PLAYING ∨
      (tickInfection s).gameOverReason = GameOverReason.INFECTED := by
  unfold tickInfection endGame
  rw [if_pos h]
  dsimp only
  split_ifs
  · exact Or.inr rfl
  · exact Or.inl h

/-- Claim C4: the remaining time after a playing-phase host tick is
computed from the wall-clock elapsed time since the recorded match start
(never from accumulated per-tick decrements — the formula only involves
`now` and `gameStartTime`), and the session transitions from `PLAYING` to
`GAME_OVER` with reason `TIME_UP` on a tick exactly when the elapsed
wall-clock time has reached the configured match duration (180 s =
180000 ms), independent of how many ticks happened before or at what
rate. -/
theorem time_up_exactly_at_duration (s : HostState) (now : ℤ)
    (inputs : String → ℝ × ℝ)
    (hplay : s.gameState = GameState.PLAYING) :
    ((updateHost s now inputs).gameState = GameState.GAME_OVER ∧
        (updateHost s now inputs).gameOverReason = GameOverReason.TIME_UP ↔
      180000 ≤ now - s.gameStartTime) ∧
    (updateHost s now inputs).timeLeft =
      max 0 (GAME_DURATION - (now - s.gameStartTime).fdiv 1000) := by
  have hng : ¬ s.gameState = GameState.GAME_OVER := by
    rw [hplay]
    exact fun hc => GameState.noConfusion hc
  unfold updateHost
  rw [if_neg hng]
  by_cases ht : 180000 ≤ now - s.gameStartTime
  · rw [tickTimer_timeout s now hplay ht]
    rw [tickInfection_not_playing _
      (by simp [tickPhysics] : ¬ (tickPhysics { s with
        timeLeft := max 0 (GAME_DURATION - (now - s.gameStartTime).fdiv 1000),
        gameState := GameState.GAME_OVER,
        gameOverReason := GameOverReason.TIME_UP } inputs).gameState =
          GameState.PLAYING)]
    simp [tickPhysics, ht]
  · rw [tickTimer_no_timeout s now hplay (not_le.1 ht)]
    have hT : (tickPhysics { s with
        timeLeft := max 0 (GAME_DURATION - (now - s.gameStartTime).fdiv 1000) }
          inputs).gameState = GameState.PLAYING := by
      simp [tickPhysics, hplay]
    constructor
    · constructor
      · intro hc
        rcases tickInfection_state_or_reason _ hT with hps | hrs
        · rw [hc.1] at hps
          exact absurd hps (fun hpc => GameState.noConfusion hpc)
        · rw [hc.2] at hrs
          exact absurd hrs (fun hrc => GameOverReason.noConfusion hrc)
      · intro hc
        exact absurd hc ht
    · rw [tickInfection_timeLeft]
      rfl

/-- Claim C2: role transition is monotonic on the host — pointwise along
the player list, any player that is a `ZOMBIE` (Pursuer) is still a
`ZOMBIE` after any sequence of host simulation ticks; no tick ever reverts
a Pursuer to a Survivor (Evader). -/
theorem role_monotonic (s : HostState)
    (ticks : List (ℤ × (String → ℝ × ℝ))) :
    List.Forall₂ roleMono s.players (runHost s ticks).players := by
  induction ticks generalizing s with
  | nil => exact forall₂_roleMono_refl _
  | cons t ts ih =>
      exact forall₂_roleMono_trans (updateHost_roleMono s t.1 t.2)
        (ih (updateHost s t.1 t.2))

/-- Instantiation of `role_monotonic` on a concrete two-player session and
a concrete tick sequence. -/
theorem role_monotonic_witness :
    List.Forall₂ roleMono hostStateA.players
      (runHost hostStateA [(1000, inp0), (2000, inp0)]).players :=
  role_monotonic hostStateA [(1000, inp0), (2000, inp0)]

/-- Instantiation of `time_up_exactly_at_duration` on a concrete playing
session at a concrete wall-clock time, its hypothesis discharged by
`rfl`. -/
theorem time_up_exactly_at_duration_witness :
    ((updateHost hostStateA 5000 inp0).gameState = GameState.GAME_OVER ∧
        (updateHost hostStateA 5000 inp0).gameOverReason =
          GameOverReason.TIME_UP ↔
      180000 ≤ 5000 - hostStateA.gameStartTime) ∧
    (updateHost hostStateA 5000 inp0).timeLeft =
      max 0 (GAME_DURATION - (5000 - hostStateA.gameStartTime).fdiv 1000) :=
  time_up_exactly_at_duration hostStateA 5000 inp0 rfl

/-- Claim C6 (amended): in the host tick, after the exponential smoothing
`new = old + (target − old) × 0.2`, the near-zero snap acts per component:
a component of absolute value below `0.01` is snapped to exactly `0` and a
component of absolute value at least `0.01` is kept; consequently a
velocity vector of magnitude below `0.01` becomes exactly `(0,0)`.  (The
claim's converse — vectors of magnitude ≥ 0.01 left unchanged — fails,
see the counterexample.) -/
theorem velocity_snap_componentwise (p : Player) (inp : ℝ × ℝ) :
    ((smoothVelocity p inp).dx ^ 2 + (smoothVelocity p inp).dy ^ 2 <
        0.01 ^ 2 →
      (snapVelocity (smoothVelocity p inp)).dx = 0 ∧
      (snapVelocity (smoothVelocity p inp)).dy = 0) ∧
    (0.01 ≤ |(smoothVelocity p inp).dx| →
      (snapVelocity (smoothVelocity p inp)).dx = (smoothVelocity p inp).dx) ∧
    (0.01 ≤ |(smoothVelocity p inp).dy| →
      (snapVelocity (smoothVelocity p inp)).dy = (smoothVelocity p inp).dy) ∧
    (|(smoothVelocity p inp).dx| < 0.01 →
      (snapVelocity (smoothVelocity p inp)).dx = 0) ∧
    (|(smoothVelocity p inp).dy| < 0.01 →
      (snapVelocity (smoothVelocity p inp)).dy = 0) := by
  have hq : ∀ q : Player,
      (q.dx ^ 2 + q.dy ^ 2 < 0.01 ^ 2 →
        (snapVelocity q).dx = 0 ∧ (snapVelocity q).dy = 0) ∧
      (0.01 ≤ |q.dx| → (snapVelocity q).dx = q.dx) ∧
      (0.01 ≤ |q.dy| → (snapVelocity q).dy = q.dy) ∧
      (|q.dx| < 0.01 → (snapVelocity q).dx = 0) ∧
      (|q.dy| < 0.01 → (snapVelocity q).dy = 0) := by
    intro q
    unfold snapVelocity
    refine ⟨fun hmag => ?_, fun hx => ?_, fun hy => ?_, fun hx => ?_,
      fun hy => ?_⟩
    · have hax : |q.dx| < 0.01 := by
        nlinarith [sq_abs q.dx, sq_abs q.dy, abs_nonneg q.dx, abs_nonneg q.dy,
          sq_nonneg q.dy, sq_nonneg q.dx]
      have hay : |q.dy| < 0.01 := by
        nlinarith [sq_abs q.dx, sq_abs q.dy, abs_nonneg q.dx, abs_nonneg q.dy,
          sq_nonneg q.dy, sq_nonneg q.dx]
      exact ⟨by simp [hax], by simp [hay]⟩
    · simp [not_lt.2 hx]
    · simp [not_lt.2 hy]
    · simp [hx]
    · simp [hy]
  exact hq (smoothVelocity p inp)

/-- Instantiation of `velocity_snap_componentwise` on a concrete slowly
drifting player with zero input: the smoothed velocity `(0.004, 0.004)`
has magnitude below `0.01` and is snapped to exactly `(0,0)`. -/
theorem velocity_snap_componentwise_witness :
    (snapVelocity (smoothVelocity pSlow (0, 0))).dx = 0 ∧
    (snapVelocity (smoothVelocity pSlow (0, 0))).dy = 0 :=
  (velocity_snap_componentwise pSlow (0, 0)).1
    (by norm_num [smoothVelocity, lerp, pSlow, examplePlayer])

/-- Claim C6, counterexample to the claim as stated: the smoothed velocity
`(0.009, 0.009)` has magnitude `≈ 0.0127 ≥ 0.01`, yet the snap step does
not leave it unchanged — both components are below the per-component
threshold and are zeroed. -/
theorem velocity_snap_alters_fast_vector :
    0.01 ^ 2 ≤ (smoothVelocity examplePlayer (0.045, 0.045)).dx ^ 2 +
        (smoothVelocity examplePlayer (0.045, 0.045)).dy ^ 2 ∧
    (smoothVelocity examplePlayer (0.045, 0.045)).dx ≠ 0 ∧
    (snapVelocity (smoothVelocity examplePlayer (0.045, 0.045))).dx = 0 ∧
    (snapVelocity (smoothVelocity examplePlayer (0.045, 0.045))).dy = 0 := by
  norm_num [smoothVelocity, snapVelocity, lerp, examplePlayer, abs_lt]

/-- Claim C9: the wander-target resampling of `updateBot` can leave the
bot without a target — a bot at the map center with no current target
whose ten samples all fall at the center itself (distance 0 ≤ 400) ends
the resampling block with `target = none`, and the source then
dereferences `bot.target!.x` / `bot.target!.y` on an undefined value. -/
theorem wander_target_can_be_undefined :
    wanderTarget botCentered (fun _ => 0.5) = none := by
  have hstep : ∀ i : ℕ,
      ((0.5 : ℝ) * (MAP_WIDTH - 100) + 50 = 1250) ∧
      ((0.5 : ℝ) * (MAP_HEIGHT - 100) + 50 = 1250) := by
    intro i
    norm_num [MAP_WIDTH, MAP_HEIGHT]
  have hdist : getDistance ⟨botCentered.x, botCentered.y⟩
      ⟨(0.5 : ℝ) * (MAP_WIDTH - 100) + 50,
        (0.5 : ℝ) * (MAP_HEIGHT - 100) + 50⟩ = 0 := by
    have h1 := (hstep 0).1
    have h2 := (hstep 0).2
    rw [h1, h2]
    norm_num [getDistance, botCentered, examplePlayer, Real.sqrt_zero]
  have hloop : ∀ (k i : ℕ),
      wanderLoop botCentered (fun _ => 0.5) k i = none := by
    intro k
    induction k with
    | zero => intro i; rfl
    | succ k ih =>
        intro i
        unfold wanderLoop
        rw [if_neg (by rw [hdist]; norm_num)]
        exact ih (i + 1)
  unfold wanderTarget
  have htgt : botCentered.target = none := rfl
  rw [htgt]
  exact hloop 10 0

lemma accepted_of_eq_some {c : Prop} [Decidable c] {o : Obstacle}
    {x y w h : ℝ}
    (hi : (if c then none else some (⟨x, y, w, h⟩ : Obstacle)) = some o) :
    ¬c ∧ o = ⟨x, y, w, h⟩ := by
  split_ifs at hi with hc
  exact ⟨hc, (Option.some.inj hi).symm⟩

/-- Claim C7 (amended): every obstacle produced by `generateObstacles` has
its *center* at distance at least `safeZoneRadius` from the map center —
this is the check the source performs; the rectangle body may still reach
into the safe zone (see the counterexample). -/
theorem generated_obstacle_center_outside_safe_zone (rand : ℕ → ℝ)
    (obs : Obstacle) (h : obs ∈ generateObstacles rand) :
    safeZoneRadius ≤
      getDistance ⟨obs.x + obs.width / 2, obs.y + obs.height / 2⟩ mapCenter := by
  unfold generateObstacles at h
  rcases List.mem_append.1 h with hm | hm
  · rcases List.mem_filterMap.1 hm with ⟨i, _, hi⟩
    unfold wallAt at hi
    dsimp only at hi
    obtain ⟨hc, rfl⟩ := accepted_of_eq_some hi
    simpa using not_lt.1 hc
  · rcases List.mem_filterMap.1 hm with ⟨i, _, hi⟩
    unfold debrisAt at hi
    dsimp only at hi
    obtain ⟨hc, rfl⟩ := accepted_of_eq_some hi
    simpa using not_lt.1 hc

/-- Instantiation of `generated_obstacle_center_outside_safe_zone` on the
concrete stream `rand0` and the wall it generates first. -/
theorem generated_obstacle_center_witness :
    safeZoneRadius ≤ getDistance
      ⟨smallWall.x + smallWall.width / 2, smallWall.y + smallWall.height / 2⟩
      mapCenter :=
  generated_obstacle_center_outside_safe_zone rand0 smallWall (by
    unfold generateObstacles
    apply List.mem_append_left
    apply List.mem_filterMap.2
    refine ⟨0, by simp, ?_⟩
    unfold wallAt
    dsimp only
    norm_num [getDistance, rand0, smallWall, mapCenter, MAP_WIDTH, MAP_HEIGHT,
      safeZoneRadius]
    intro hlt
    rw [Real.sqrt_lt' (by norm_num : (0:ℝ) < 250)] at hlt
    norm_num at hlt)

/-- Claim C7, counterexample to the claim as stated: under the stream
`randC7`, `generateObstacles` accepts the wall `badWall` (its center is at
distance exactly 250 from the map center, so the center check does not
reject it), yet the rectangle body comes within 50 units of the map
center — it overlaps the safe-zone disc of radius 250. -/
theorem generated_obstacle_overlaps_safe_zone :
    badWall ∈ generateObstacles randC7 ∧
    distSqToRect mapCenter.x mapCenter.y badWall < safeZoneRadius ^ 2 := by
  constructor
  · unfold generateObstacles
    apply List.mem_append_left
    apply List.mem_filterMap.2
    refine ⟨0, by simp, ?_⟩
    unfold wallAt
    dsimp only
    norm_num [getDistance, randC7, badWall, mapCenter, MAP_WIDTH, MAP_HEIGHT,
      safeZoneRadius]
    intro hlt
    rw [Real.sqrt_lt' (by norm_num : (0:ℝ) < 250)] at hlt
    norm_num at hlt
  · norm_num [distSqToRect, closestRectPoint, clamp, badWall, mapCenter,
      MAP_WIDTH, MAP_HEIGHT, safeZoneRadius, max_def, min_def]

lemma surfaceNormal_sq (bot : Player) (obs : Obstacle) :
    (surfaceNormal bot obs).1 ^ 2 + (surfaceNormal bot obs).2 ^ 2 = 0 ∨
    (surfaceNormal bot obs).1 ^ 2 + (surfaceNormal bot obs).2 ^ 2 = 1 := by
  unfold surfaceNormal
  dsimp only
  split_ifs
  · rcases Real.sign_apply_eq (bot.x - (obs.x + obs.width / 2)) with hs | hs | hs <;>
      rw [hs] <;> norm_num
  · rcases Real.sign_apply_eq (bot.y - (obs.y + obs.height / 2)) with hs | hs | hs <;>
      rw [hs] <;> norm_num

lemma slide_dot (n1 n2 tx ty : ℝ) (hn : n1 ^ 2 + n2 ^ 2 = 1) :
    (tx - n1 * (tx * n1 + ty * n2) + n1 * 0.5) * n1 +
      (ty - n2 * (tx * n1 + ty * n2) + n2 * 0.5) * n2 = 0.5 := by
  linear_combination ((1 : ℝ) / 2 - (tx * n1 + ty * n2)) * hn

/-- Claim C8: whenever a bot's look-ahead point (60 units along the
blended unit desired vector) intersects an obstacle and the desired vector
moves into the computed axis-aligned surface normal (strictly negative dot
product), the post-slide vector has non-negative dot product with that
normal and magnitude exactly 1. -/
theorem wall_slide_correct (bot : Player) (obs : Obstacle) (tx ty : ℝ)
    (hunit : tx ^ 2 + ty ^ 2 = 1)
    (hhit : getLineRectIntersection ⟨bot.x, bot.y⟩
        ⟨bot.x + tx * 60, bot.y + ty * 60⟩ obs 10 ≠ none)
    (hdot : tx * (surfaceNormal bot obs).1 +
        ty * (surfaceNormal bot obs).2 < 0) :
    0 ≤ (wallSlide bot obs (tx, ty)).1 * (surfaceNormal bot obs).1 +
        (wallSlide bot obs (tx, ty)).2 * (surfaceNormal bot obs).2 ∧
    (wallSlide bot obs (tx, ty)).1 ^ 2 + (wallSlide bot obs (tx, ty)).2 ^ 2
      = 1 := by
  obtain ⟨n1, n2, hsn⟩ : ∃ a b, surfaceNormal bot obs = (a, b) := ⟨_, _, rfl⟩
  rw [hsn] at hdot ⊢
  have hn : n1 ^ 2 + n2 ^ 2 = 1 := by
    rcases surfaceNormal_sq bot obs with h0 | h1
    · exfalso
      rw [hsn] at h0
      dsimp only at h0
      have hz1 : n1 = 0 := by nlinarith [sq_nonneg n1, sq_nonneg n2]
      have hz2 : n2 = 0 := by nlinarith [sq_nonneg n1, sq_nonneg n2]
      rw [hz1, hz2] at hdot
      norm_num at hdot
    · rw [hsn] at h1
      exact h1
  unfold wallSlide
  rw [hsn]
  dsimp only
  rw [if_pos hdot]
  set sx := tx - n1 * (tx * n1 + ty * n2) + n1 * 0.5 with hsx
  set sy := ty - n2 * (tx * n1 + ty * n2) + n2 * 0.5 with hsy
  have hdot5 : sx * n1 + sy * n2 = 0.5 := by
    rw [hsx, hsy]
    exact slide_dot n1 n2 tx ty hn
  clear_value sx sy
  have key : (sx * n1 + sy * n2) ^ 2 + (sx * n2 - sy * n1) ^ 2 =
      (sx ^ 2 + sy ^ 2) * (n1 ^ 2 + n2 ^ 2) := by ring
  have key2 : (sx * n1 + sy * n2) ^ 2 + (sx * n2 - sy * n1) ^ 2 =
      sx ^ 2 + sy ^ 2 := by
    linear_combination key + (sx ^ 2 + sy ^ 2) * hn
  have hdsq : (sx * n1 + sy * n2) ^ 2 = 0.25 := by
    rw [hdot5]
    norm_num
  have h025 : (0.25 : ℝ) ≤ sx ^ 2 + sy ^ 2 := by
    nlinarith [key2, hdsq, sq_nonneg (sx * n2 - sy * n1)]
  have hsum_eq : sx * sx + sy * sy = sx ^ 2 + sy ^ 2 := by ring
  have hsum_nonneg : 0 ≤ sx * sx + sy * sy := by nlinarith [sq_nonneg sx, sq_nonneg sy]
  have hsqrt5 : 0.5 ≤ Real.sqrt (sx * sx + sy * sy) := by
    rw [Real.le_sqrt (by norm_num) hsum_nonneg]
    rw [hsum_eq]
    nlinarith [h025]
  have hpos : 0 < Real.sqrt (sx * sx + sy * sy) :=
    lt_of_lt_of_le (by norm_num) hsqrt5
  have hne : Real.sqrt (sx * sx + sy * sy) ≠ 0 := ne_of_gt hpos
  rw [if_pos (lt_of_lt_of_le (by norm_num : (0.001 : ℝ) < 0.5) hsqrt5)]
  dsimp only
  constructor
  · have hdistrib : sx / Real.sqrt (sx * sx + sy * sy) * n1 +
        sy / Real.sqrt (sx * sx + sy * sy) * n2 =
        (sx * n1 + sy * n2) / Real.sqrt (sx * sx + sy * sy) := by
      ring
    rw [hdistrib, hdot5]
    exact div_nonneg (by norm_num) (le_of_lt hpos)
  · have hssq : Real.sqrt (sx * sx + sy * sy) ^ 2 = sx * sx + sy * sy :=
      Real.sq_sqrt hsum_nonneg
    have hsum_pos : 0 < sx * sx + sy * sy := by nlinarith [h025]
    have hratio : (sx / Real.sqrt (sx * sx + sy * sy)) ^ 2 +
        (sy / Real.sqrt (sx * sx + sy * sy)) ^ 2 =
        (sx * sx + sy * sy) / Real.sqrt (sx * sx + sy * sy) ^ 2 := by
      ring
    rw [hratio, hssq]
    exact div_self (ne_of_gt hsum_pos)

/-- Instantiation of `wall_slide_correct`: the bot at `(115, 50)` moving
left with unit vector `(-1, 0)` into the obstacle `[0,100]×[0,100]` — its
look-ahead midpoint `(85, 50)` lies in the padded rectangle and the normal
is `(1, 0)`, so the dot product is `-1 < 0`. -/
theorem wall_slide_correct_witness :
    0 ≤ (wallSlide botWall obsWall (-1, 0)).1 *
          (surfaceNormal botWall obsWall).1 +
        (wallSlide botWall obsWall (-1, 0)).2 *
          (surfaceNormal botWall obsWall).2 ∧
    (wallSlide botWall obsWall (-1, 0)).1 ^ 2 +
      (wallSlide botWall obsWall (-1, 0)).2 ^ 2 = 1 :=
  wall_slide_correct botWall obsWall (-1) 0 (by norm_num)
    (by
      unfold getLineRectIntersection
      dsimp only
      norm_num [botWall, examplePlayer, obsWall, min_def, max_def]
      exact fun hc => Option.noConfusion hc)
    (by
      have hs : Real.sign (botWall.x - (obsWall.x + obsWall.width / 2)) = 1 :=
        Real.sign_of_pos (by norm_num [botWall, examplePlayer, obsWall])
      unfold surfaceNormal
      dsimp only
      rw [if_pos (by norm_num [botWall, examplePlayer, obsWall] :
        |botWall.x - (obsWall.x + obsWall.width / 2)| - obsWall.width / 2 >
          |botWall.y - (obsWall.y + obsWall.height / 2)| - obsWall.height / 2)]
      dsimp only
      rw [hs]
      norm_num)

lemma clamp_eq_lo {v lo hi : ℝ} (hv : v ≤ lo) (h : lo ≤ hi) :
    clamp v lo hi = lo := by
  unfold clamp
  rw [max_eq_right hv, min_eq_left h]

lemma clamp_eq_self {v lo hi : ℝ} (hlo : lo ≤ v) (hhi : v ≤ hi) :
    clamp v lo hi = v := by
  unfold clamp
  rw [max_eq_left hlo, min_eq_left hhi]

lemma clamp_eq_hi {v lo hi : ℝ} (hv : hi ≤ v) (h : lo ≤ hi) :
    clamp v lo hi = hi := by
  unfold clamp
  rw [max_eq_left (h.trans hv), min_eq_right hv]

lemma lo_le_clamp (v : ℝ) {lo hi : ℝ} (h : lo ≤ hi) : lo ≤ clamp v lo hi :=
  le_min (le_max_right _ _) h

lemma clamp_le_hi (v lo hi : ℝ) : clamp v lo hi ≤ hi :=
  min_le_right _ _

lemma push_axis (v lo hi d r : ℝ) (hlh : lo ≤ hi) (hd : 0 < d) (hdr : d < r) :
    v + (v - clamp v lo hi) / d * (r - d) -
      clamp (v + (v - clamp v lo hi) / d * (r - d)) lo hi =
    (v - clamp v lo hi) * (r / d) := by
  have hrd : 0 < r - d := by linarith
  by_cases h1 : v < lo
  · have hc : clamp v lo hi = lo := clamp_eq_lo (le_of_lt h1) hlh
    rw [hc]
    have hv2 : v + (v - lo) / d * (r - d) ≤ lo := by
      have : (v - lo) / d * (r - d) ≤ 0 :=
        mul_nonpos_of_nonpos_of_nonneg
          (div_nonpos_of_nonpos_of_nonneg (by linarith) (le_of_lt hd))
          (le_of_lt hrd)
      linarith
    rw [clamp_eq_lo hv2 hlh]
    field_simp
    ring
  · by_cases h2 : hi < v
    · have hc : clamp v lo hi = hi := clamp_eq_hi (le_of_lt h2) hlh
      rw [hc]
      have hv2 : hi ≤ v + (v - hi) / d * (r - d) := by
        have : 0 ≤ (v - hi) / d * (r - d) :=
          mul_nonneg (div_nonneg (by linarith) (le_of_lt hd)) (le_of_lt hrd)
        linarith
      rw [clamp_eq_hi hv2 hlh]
      field_simp
      ring
    · have hc : clamp v lo hi = v := clamp_eq_self (not_lt.1 h1) (not_lt.1 h2)
      rw [hc]
      simp [hc]

lemma collideStep_separates (q : Player) (o : Obstacle)
    (hr : 0 ≤ q.radius) (hwd : 0 ≤ o.width) (hht : 0 ≤ o.height)
    (hnd : 0.0001 < distSqToRect q.x q.y o) :
    q.radius ^ 2 ≤ distSqToRect (collideStep q o).x (collideStep q o).y o := by
  have hfd : distSqToRect q.x q.y o =
      (q.x - clamp q.x o.x (o.x + o.width)) *
        (q.x - clamp q.x o.x (o.x + o.width)) +
      (q.y - clamp q.y o.y (o.y + o.height)) *
        (q.y - clamp q.y o.y (o.y + o.height)) := by
    unfold distSqToRect closestRectPoint
    dsimp only
    ring
  unfold collideStep
  dsimp only
  split_ifs with hbroad hpush
  · unfold distSqToRect closestRectPoint
    dsimp only
    rcases hbroad with h | h | h | h
    · rw [clamp_eq_lo (by linarith : q.x ≤ o.x) (by linarith : o.x ≤ o.x + o.width)]
      nlinarith [sq_nonneg (q.y - clamp q.y o.y (o.y + o.height))]
    · rw [clamp_eq_hi (by linarith : o.x + o.width ≤ q.x)
        (by linarith : o.x ≤ o.x + o.width)]
      nlinarith [sq_nonneg (q.y - clamp q.y o.y (o.y + o.height))]
    · rw [clamp_eq_lo (by linarith : q.y ≤ o.y) (by linarith : o.y ≤ o.y + o.height)]
      nlinarith [sq_nonneg (q.x - clamp q.x o.x (o.x + o.width))]
    · rw [clamp_eq_hi (by linarith : o.y + o.height ≤ q.y)
        (by linarith : o.y ≤ o.y + o.height)]
      nlinarith [sq_nonneg (q.x - clamp q.x o.x (o.x + o.width))]
  · have hdsq_pos : 0 <
        (q.x - clamp q.x o.x (o.x + o.width)) *
          (q.x - clamp q.x o.x (o.x + o.width)) +
        (q.y - clamp q.y o.y (o.y + o.height)) *
          (q.y - clamp q.y o.y (o.y + o.height)) :=
      lt_trans (by norm_num) hpush.2
    have hd : 0 < Real.sqrt
        ((q.x - clamp q.x o.x (o.x + o.width)) *
          (q.x - clamp q.x o.x (o.x + o.width)) +
        (q.y - clamp q.y o.y (o.y + o.height)) *
          (q.y - clamp q.y o.y (o.y + o.height))) :=
      Real.sqrt_pos.2 hdsq_pos
    have hdd : Real.sqrt
        ((q.x - clamp q.x o.x (o.x + o.width)) *
          (q.x - clamp q.x o.x (o.x + o.width)) +
        (q.y - clamp q.y o.y (o.y + o.height)) *
          (q.y - clamp q.y o.y (o.y + o.height))) *
        Real.sqrt
        ((q.x - clamp q.x o.x (o.x + o.width)) *
          (q.x - clamp q.x o.x (o.x + o.width)) +
        (q.y - clamp q.y o.y (o.y + o.height)) *
          (q.y - clamp q.y o.y (o.y + o.height))) =
        (q.x - clamp q.x o.x (o.x + o.width)) *
          (q.x - clamp q.x o.x (o.x + o.width)) +
        (q.y - clamp q.y o.y (o.y + o.height)) *
          (q.y - clamp q.y o.y (o.y + o.height)) :=
      Real.mul_self_sqrt (le_of_lt hdsq_pos)
    have hdr : Real.sqrt
        ((q.x - clamp q.x o.x (o.x + o.width)) *
          (q.x - clamp q.x o.x (o.x + o.width)) +
        (q.y - clamp q.y o.y (o.y + o.height)) *
          (q.y - clamp q.y o.y (o.y + o.height))) < q.radius := by
      nlinarith [hpush.1, hd, hdd]
    unfold distSqToRect closestRectPoint
    dsimp only
    rw [push_axis q.x o.x (o.x + o.width) _ q.radius (by linarith) hd hdr]
    rw [push_axis q.y o.y (o.y + o.height) _ q.radius (by linarith) hd hdr]
    have hexp : ((q.x - clamp q.x o.x (o.x + o.width)) *
          (q.radius / Real.sqrt
            ((q.x - clamp q.x o.x (o.x + o.width)) *
              (q.x - clamp q.x o.x (o.x + o.width)) +
            (q.y - clamp q.y o.y (o.y + o.height)) *
              (q.y - clamp q.y o.y (o.y + o.height))))) ^ 2 +
        ((q.y - clamp q.y o.y (o.y + o.height)) *
          (q.radius / Real.sqrt
            ((q.x - clamp q.x o.x (o.x + o.width)) *
              (q.x - clamp q.x o.x (o.x + o.width)) +
            (q.y - clamp q.y o.y (o.y + o.height)) *
              (q.y - clamp q.y o.y (o.y + o.height))))) ^ 2 = q.radius ^ 2 := by
      field_simp
      nlinarith [hdd]
    rw [hexp]
  · have hge : q.radius * q.radius ≤
        (q.x - clamp q.x o.x (o.x + o.width)) *
          (q.x - clamp q.x o.x (o.x + o.width)) +
        (q.y - clamp q.y o.y (o.y + o.height)) *
          (q.y - clamp q.y o.y (o.y + o.height)) := by
      by_contra hlt
      push_neg at hlt
      exact hpush ⟨hlt, by rw [hfd] at hnd; exact hnd⟩
    rw [hfd] at hnd ⊢
    nlinarith [hge]

/-- Claim C1 (amended): `resolve_collision` clamps the player into
`[radius, mapDimension − radius]` on both axes (and with no obstacles the
final position lies in those bounds); for a single obstacle, whenever the
clamped center is non-degenerately placed (squared distance to the
rectangle above the source's `0.0001` threshold), the final center's
squared distance to the rectangle is at least `radius²`.  The claim's
unconditional form is false: a center inside the rectangle is left
overlapping (see the counterexample), and sequential multi-obstacle
resolution offers no joint guarantee. -/
theorem resolve_collision_single_obstacle (p : Player) (o : Obstacle)
    (hr : 0 ≤ p.radius) (hw : p.radius ≤ MAP_WIDTH - p.radius)
    (hh : p.radius ≤ MAP_HEIGHT - p.radius)
    (hwd : 0 ≤ o.width) (hht : 0 ≤ o.height)
    (hnd : 0.0001 < distSqToRect (clamp p.x p.radius (MAP_WIDTH - p.radius))
        (clamp p.y p.radius (MAP_HEIGHT - p.radius)) o) :
    p.radius ^ 2 ≤ distSqToRect (resolveCollision p [o]).x
        (resolveCollision p [o]).y o ∧
    p.radius ≤ (resolveCollision p []).x ∧
    (resolveCollision p []).x ≤ MAP_WIDTH - p.radius ∧
    p.radius ≤ (resolveCollision p []).y ∧
    (resolveCollision p []).y ≤ MAP_HEIGHT - p.radius := by
  refine ⟨?_, ?_, ?_, ?_, ?_⟩
  · unfold resolveCollision
    rw [List.foldl_cons, List.foldl_nil]
    exact collideStep_separates
      { p with x := clamp p.x p.radius (MAP_WIDTH - p.radius),
               y := clamp p.y p.radius (MAP_HEIGHT - p.radius) }
      o hr hwd hht hnd
  · unfold resolveCollision
    rw [List.foldl_nil]
    exact lo_le_clamp p.x hw
  · unfold resolveCollision
    rw [List.foldl_nil]
    exact clamp_le_hi p.x p.radius (MAP_WIDTH - p.radius)
  · unfold resolveCollision
    rw [List.foldl_nil]
    exact lo_le_clamp p.y hh
  · unfold resolveCollision
    rw [List.foldl_nil]
    exact clamp_le_hi p.y p.radius (MAP_HEIGHT - p.radius)

/-- Claim C1, counterexample to the claim as stated: a player whose center
sits on the rectangle (distance to the nearest rectangle point is 0, the
degenerate branch `distanceSquared ≤ 0.0001`) is returned unchanged by
`resolve_collision`, still overlapping the obstacle — the distance from
its center to the nearest rectangle point is below its radius. -/
theorem resolve_collision_leaves_overlap :
    resolveCollision examplePlayer [obsWall] = examplePlayer ∧
    distSqToRect examplePlayer.x examplePlayer.y obsWall <
      examplePlayer.radius ^ 2 := by
  constructor
  · unfold resolveCollision collideStep
    rw [List.foldl_cons, List.foldl_nil]
    norm_num [examplePlayer, obsWall, clamp, max_def, min_def, PLAYER_RADIUS,
      MAP_WIDTH, MAP_HEIGHT]
  · norm_num [examplePlayer, obsWall, distSqToRect, closestRectPoint, clamp,
      max_def, min_def, PLAYER_RADIUS]

/-- Instantiation of `resolve_collision_single_obstacle` on a concrete
out-of-bounds player and a far-away obstacle: the clamped center `(15,
2485)` is at squared distance `25 + 2475² = 6125650 > 0.0001` from the
rectangle `[0,10]×[0,10]`. -/
theorem resolve_collision_single_obstacle_witness :
    pOut.radius ^ 2 ≤ distSqToRect (resolveCollision pOut [obsSmall]).x
        (resolveCollision pOut [obsSmall]).y obsSmall ∧
    pOut.radius ≤ (resolveCollision pOut []).x ∧
    (resolveCollision pOut []).x ≤ MAP_WIDTH - pOut.radius ∧
    pOut.radius ≤ (resolveCollision pOut []).y ∧
    (resolveCollision pOut []).y ≤ MAP_HEIGHT - pOut.radius :=
  resolve_collision_single_obstacle pOut obsSmall
    (by norm_num [pOut, examplePlayer, PLAYER_RADIUS])
    (by norm_num [pOut, examplePlayer, PLAYER_RADIUS, MAP_WIDTH])
    (by norm_num [pOut, examplePlayer, PLAYER_RADIUS, MAP_HEIGHT])
    (by norm_num [obsSmall])
    (by norm_num [obsSmall])
    (by norm_num [pOut, examplePlayer, PLAYER_RADIUS, MAP_WIDTH, MAP_HEIGHT,
      distSqToRect, closestRectPoint, clamp, max_def, min_def, obsSmall])

lemma length_filter_role_map (l : List Player) (f : Player → Player)
    (hf : ∀ p, (f p).role = p.role) (r : Role) :
    ((l.map f).filter (fun p => p.role = r)).length =
    (l.filter (fun p => p.role = r)).length := by
  rw [List.filter_map, List.length_map]
  congr 1
  apply List.filter_congr
  intro a _
  simp [Function.comp, hf]

lemma updateHost_not_over (s : HostState) (now : ℤ)
    (inputs : String → ℝ × ℝ) (h : ¬ s.gameState = GameState.GAME_OVER) :
    updateHost s now inputs =
      tickInfection (tickPhysics (tickTimer s now) inputs) := by
  unfold updateHost
  rw [if_neg h]

lemma tickInfection_no_end (s : HostState)
    (h : s.gameState = GameState.PLAYING)
    (hs : ¬ ((s.players.filter (fun p => p.role = Role.SURVIVOR)).length = 0 ∧
      1 < s.players.length)) :
    tickInfection s = { s with
      players := s.players.map
        (infectStep (s.players.filter (fun p => p.role = Role.ZOMBIE))),
      statSurvivors := (s.players.filter (fun p => p.role = Role.SURVIVOR)).length,
      statZombies := (s.players.filter (fun p => p.role = Role.ZOMBIE)).length } := by
  unfold tickInfection
  rw [if_pos h]
  dsimp only
  rw [if_neg hs]

lemma tickInfection_end (s : HostState)
    (h : s.gameState = GameState.PLAYING)
    (hs : (s.players.filter (fun p => p.role = Role.SURVIVOR)).length = 0)
    (hl : 1 < s.players.length) :
    tickInfection s = { s with
      players := s.players.map
        (infectStep (s.players.filter (fun p => p.role = Role.ZOMBIE))),
      statSurvivors := (s.players.filter (fun p => p.role = Role.SURVIVOR)).length,
      statZombies := (s.players.filter (fun p => p.role = Role.ZOMBIE)).length,
      gameState := GameState.GAME_OVER,
      gameOverReason := GameOverReason.INFECTED } := by
  unfold tickInfection endGame
  rw [if_pos h]
  dsimp only
  rw [if_pos ⟨hs, hl⟩]

/-- Claim C3 (amended): in a `PLAYING` session with more than one player
whose only Evader is infected during tick T (survivor count drops from 1
to 0 across that tick), and whose match timer has not expired by tick T
nor by tick T+1, the session is still `PLAYING` after tick T (never
earlier than the infection) and reaches `GAME_OVER` with reason `INFECTED`
on tick T+1.  Without the timer hypotheses the claim is false — the
time-up trigger is checked first and wins the race (see the
counterexample). -/
theorem infection_endgame_next_tick (s : HostState) (t1 t2 : ℤ)
    (inp1 inp2 : String → ℝ × ℝ)
    (hplay : s.gameState = GameState.PLAYING)
    (hlen : 1 < s.players.length)
    (ht1 : t1 - s.gameStartTime < 180000)
    (ht2 : t2 - s.gameStartTime < 180000)
    (hone : (s.players.filter (fun p => p.role = Role.SURVIVOR)).length = 1)
    (hinf : ((updateHost s t1 inp1).players.filter
        (fun p => p.role = Role.SURVIVOR)).length = 0) :
    (updateHost s t1 inp1).gameState = GameState.PLAYING ∧
    (updateHost (updateHost s t1 inp1) t2 inp2).gameState =
      GameState.GAME_OVER ∧
    (updateHost (updateHost s t1 inp1) t2 inp2).gameOverReason =
      GameOverReason.INFECTED := by
  have hng : ¬ s.gameState = GameState.GAME_OVER := by
    rw [hplay]
    exact fun hc => GameState.noConfusion hc
  have e1 : updateHost s t1 inp1 =
      tickInfection (tickPhysics (tickTimer s t1) inp1) :=
    updateHost_not_over s t1 inp1 hng
  have eT1 : tickTimer s t1 = { s with
      timeLeft := max 0 (GAME_DURATION - (t1 - s.gameStartTime).fdiv 1000) } :=
    tickTimer_no_timeout s t1 hplay ht1
  have hS1players : (tickPhysics (tickTimer s t1) inp1).players =
      s.players.map (fun p => movePlayer s.obstacles (inp1 p.id) p) := by
    rw [eT1]
    rfl
  have hS1state : (tickPhysics (tickTimer s t1) inp1).gameState =
      GameState.PLAYING := by
    rw [eT1]
    exact hplay
  have hS1surv : ((tickPhysics (tickTimer s t1) inp1).players.filter
      (fun p => p.role = Role.SURVIVOR)).length = 1 := by
    rw [hS1players,
      length_filter_role_map _ _ (fun p => movePlayer_role _ _ p) _]
    exact hone
  have hS1len : 1 < (tickPhysics (tickTimer s t1) inp1).players.length := by
    rw [hS1players, List.length_map]
    exact hlen
  have hnoend : ¬ (((tickPhysics (tickTimer s t1) inp1).players.filter
      (fun p => p.role = Role.SURVIVOR)).length = 0 ∧
      1 < (tickPhysics (tickTimer s t1) inp1).players.length) := by
    intro hc
    exact absurd (hS1surv.symm.trans hc.1) (by norm_num)
  have e1b : updateHost s t1 inp1 = { (tickPhysics (tickTimer s t1) inp1) with
      players := (tickPhysics (tickTimer s t1) inp1).players.map
        (infectStep ((tickPhysics (tickTimer s t1) inp1).players.filter
          (fun p => p.role = Role.ZOMBIE))),
      statSurvivors := ((tickPhysics (tickTimer s t1) inp1).players.filter
        (fun p => p.role = Role.SURVIVOR)).length,
      statZombies := ((tickPhysics (tickTimer s t1) inp1).players.filter
        (fun p => p.role = Role.ZOMBIE)).length } := by
    rw [e1]
    exact tickInfection_no_end _ hS1state hnoend
  have hS2state : (updateHost s t1 inp1).gameState = GameState.PLAYING := by
    rw [e1b]
    exact hS1state
  have hS1start : (tickPhysics (tickTimer s t1) inp1).gameStartTime =
      s.gameStartTime := by
    rw [eT1]
    rfl
  have hS2start : (updateHost s t1 inp1).gameStartTime = s.gameStartTime := by
    rw [e1b]
    exact hS1start
  have hS2len : 1 < (updateHost s t1 inp1).players.length := by
    rw [e1b]
    show 1 < ((tickPhysics (tickTimer s t1) inp1).players.map _).length
    rw [List.length_map]
    exact hS1len
  refine ⟨hS2state, ?_, ?_⟩ <;>
  · have hS2ng : ¬ (updateHost s t1 inp1).gameState = GameState.GAME_OVER := by
      rw [hS2state]
      exact fun hc => GameState.noConfusion hc
    have e2 : updateHost (updateHost s t1 inp1) t2 inp2 =
        tickInfection (tickPhysics (tickTimer (updateHost s t1 inp1) t2) inp2) :=
      updateHost_not_over _ t2 inp2 hS2ng
    have eT2 : tickTimer (updateHost s t1 inp1) t2 =
        { (updateHost s t1 inp1) with
          timeLeft := max 0 (GAME_DURATION -
            (t2 - (updateHost s t1 inp1).gameStartTime).fdiv 1000) } :=
      tickTimer_no_timeout _ t2 hS2state (by rw [hS2start]; exact ht2)
    have hS3players : (tickPhysics (tickTimer (updateHost s t1 inp1) t2) inp2).players =
        (updateHost s t1 inp1).players.map
          (fun p => movePlayer (updateHost s t1 inp1).obstacles (inp2 p.id) p) := by
      rw [eT2]
      rfl
    have hS3state : (tickPhysics (tickTimer (updateHost s t1 inp1) t2) inp2).gameState =
        GameState.PLAYING := by
      rw [eT2]
      exact hS2state
    have hS3surv : ((tickPhysics (tickTimer (updateHost s t1 inp1) t2) inp2).players.filter
        (fun p => p.role = Role.SURVIVOR)).length = 0 := by
      rw [hS3players,
        length_filter_role_map _ _ (fun p => movePlayer_role _ _ p) _]
      exact hinf
    have hS3len : 1 < (tickPhysics (tickTimer (updateHost s t1 inp1) t2) inp2).players.length := by
      rw [hS3players, List.length_map]
      exact hS2len
    rw [e2, tickInfection_end _ hS3state hS3surv hS3len]

lemma move_static (p : Player) (hdx : p.dx = 0) (hdy : p.dy = 0)
    (hx1 : p.radius ≤ p.x) (hx2 : p.x ≤ MAP_WIDTH - p.radius)
    (hy1 : p.radius ≤ p.y) (hy2 : p.y ≤ MAP_HEIGHT - p.radius) :
    movePlayer [] (0, 0) p = p := by
  obtain ⟨pid, pnick, px, py, pr, prole, pspeed, pbot, pdx, pdy, pwa, ptg, ptx, pty⟩ := p
  dsimp only at hdx hdy hx1 hx2 hy1 hy2
  subst hdx
  subst hdy
  unfold movePlayer smoothVelocity snapVelocity resolveCollision
  dsimp only
  rw [List.foldl_nil]
  norm_num [lerp]
  exact ⟨clamp_eq_self hx1 hx2, clamp_eq_self hy1 hy2⟩

lemma infect_zombie_fixed (zs : List Player) (p : Player)
    (h : p.role = Role.ZOMBIE) : infectStep zs p = p := by
  unfold infectStep
  rw [if_neg]
  intro hc
  rw [h] at hc
  exact Role.noConfusion hc.1

lemma infect_ps : infectStep [pz] ps = psz := by
  unfold infectStep
  rw [if_pos]
  · rfl
  · refine ⟨rfl, pz, List.mem_singleton_self pz, ?_⟩
    norm_num [getDistance, ps, pz, psz, examplePlayer, PLAYER_RADIUS,
      Real.sqrt_zero]

lemma tickTimer_A : tickTimer hostStateA 1000 = hostStateA1 := by
  rw [tickTimer_no_timeout _ _ rfl (by decide)]
  have hleft : max 0 (GAME_DURATION -
      ((1000 : ℤ) - hostStateA.gameStartTime).fdiv 1000) = 179 := by decide
  rw [hleft]
  rfl

lemma tickPhysics_A : tickPhysics hostStateA1 inp0 = hostStateA1 := by
  unfold tickPhysics hostStateA1 inp0
  simp only [List.map_cons, List.map_nil]
  rw [move_static pz rfl rfl
    (by norm_num [pz, examplePlayer, PLAYER_RADIUS])
    (by norm_num [pz, examplePlayer, PLAYER_RADIUS, MAP_WIDTH])
    (by norm_num [pz, examplePlayer, PLAYER_RADIUS])
    (by norm_num [pz, examplePlayer, PLAYER_RADIUS, MAP_HEIGHT])]
  rw [move_static ps rfl rfl
    (by norm_num [ps, examplePlayer, PLAYER_RADIUS])
    (by norm_num [ps, examplePlayer, PLAYER_RADIUS, MAP_WIDTH])
    (by norm_num [ps, examplePlayer, PLAYER_RADIUS])
    (by norm_num [ps, examplePlayer, PLAYER_RADIUS, MAP_HEIGHT])]

lemma filter_surv_A1 : (hostStateA1.players.filter
    (fun p => p.role = Role.SURVIVOR)).length = 1 := by
  simp [hostStateA1, pz, ps, examplePlayer]

lemma tickInfection_A : tickInfection hostStateA1 = hostStateA2 := by
  rw [tickInfection_no_end _ rfl (by
    intro hc
    exact absurd (filter_surv_A1.symm.trans hc.1) (by norm_num))]
  have hzf : hostStateA1.players.filter (fun p => p.role = Role.ZOMBIE) = [pz] := by
    simp [hostStateA1, pz, ps, examplePlayer]
  rw [hzf, filter_surv_A1]
  have hmap2 : hostStateA1.players.map (infectStep [pz]) = [pz, psz] := by
    show [infectStep [pz] pz, infectStep [pz] ps] = [pz, psz]
    rw [infect_zombie_fixed [pz] pz rfl, infect_ps]
  rw [hmap2]
  rfl

lemma tick1_eval : updateHost hostStateA 1000 inp0 = hostStateA2 := by
  rw [updateHost_not_over _ _ _ (fun hc => GameState.noConfusion hc)]
  rw [tickTimer_A, tickPhysics_A, tickInfection_A]

/-- Instantiation of `infection_endgame_next_tick` on the concrete session
`hostStateA` (zombie and survivor standing on the same spot): during the
tick at time 1000 the lone survivor is infected, and the tick at time 2000
ends the game with reason `INFECTED`. -/
theorem infection_endgame_next_tick_witness :
    (updateHost hostStateA 1000 inp0).gameState = GameState.PLAYING ∧
    (updateHost (updateHost hostStateA 1000 inp0) 2000 inp0).gameState =
      GameState.GAME_OVER ∧
    (updateHost (updateHost hostStateA 1000 inp0) 2000 inp0).gameOverReason =
      GameOverReason.INFECTED :=
  infection_endgame_next_tick hostStateA 1000 2000 inp0 inp0 rfl
    (by simp [hostStateA])
    (by decide)
    (by decide)
    (by simp [hostStateA, pz, ps, examplePlayer])
    (by rw [tick1_eval]; simp [hostStateA2, pz, psz, ps, examplePlayer])

/-- Claim C3, counterexample to the claim as stated: in the very scenario
of the claim (session `PLAYING`, two players, the only Evader infected
during tick T at time 1000), when tick T+1 happens at time 180000 the
match-duration trigger fires first and the session reaches `GAME_OVER`
with reason `TIME_UP`, not "all infected". -/
theorem infection_loses_time_race :
    hostStateA.gameState = GameState.PLAYING ∧
    1 < hostStateA.players.length ∧
    (hostStateA.players.filter (fun p => p.role = Role.SURVIVOR)).length = 1 ∧
    ((updateHost hostStateA 1000 inp0).players.filter
        (fun p => p.role = Role.SURVIVOR)).length = 0 ∧
    (updateHost (updateHost hostStateA 1000 inp0) 180000 inp0).gameState =
      GameState.GAME_OVER ∧
    (updateHost (updateHost hostStateA 1000 inp0) 180000 inp0).gameOverReason =
      GameOverReason.TIME_UP := by
  have h2 : (updateHost hostStateA2 180000 inp0).gameState =
      GameState.GAME_OVER ∧
      (updateHost hostStateA2 180000 inp0).gameOverReason =
        GameOverReason.TIME_UP := by
    rw [updateHost_not_over _ _ _ (by intro hc; exact GameState.noConfusion hc)]
    rw [tickTimer_timeout _ _ rfl (by decide)]
    rw [tickInfection_not_playing _ (by intro hc; exact GameState.noConfusion hc)]
    exact ⟨rfl, rfl⟩
  refine ⟨rfl, by simp [hostStateA], by simp [hostStateA, pz, ps, examplePlayer],
    ?_, ?_, ?_⟩
  · rw [tick1_eval]
    simp [hostStateA2, pz, psz, ps, examplePlayer]
  · rw [tick1_eval]
    exact h2.1
  · rw [tick1_eval]
    exact h2.2
